import Mathlib

/-!
Verification development for the simulation core of the `randos` battle-arena game.

The definitions below are a shallow embedding of the TypeScript sources:
  * `Player` and its methods follow `player.ts` (the current revision, with
    defense, leveling, stat accumulators and the fight-or-flight stat).
    The combat helpers `stealGold` and the `goldPerHit` field follow the
    revision of `player.ts` that defines them (they are read by
    `GameScene.handlePlayerCollision` in `game.ts`).
  * `Item`, the item catalog and `applyEffect` follow `items.ts`.
  * `Shop`, `initializeShopItems` and `buyItem` follow `shop.ts`.
  * `GameState`, `Sim` and the tick/state-machine functions follow `game.ts`
    (`BattleArenaGame` and `GameScene`).

JavaScript `number` values are modelled as `ℚ` (health, damage, speeds, stat
accumulators), gold as `ℤ`, and the XP counters as `ℕ` (they only ever hold
non-negative integers).  Rendering, tween/sprite effects and physics bodies are
outside the model; the physics layer's reported velocity magnitudes enter
`handlePlayerCollision` as explicit parameters, and `Math.random()` outcomes
are passed in as explicit parameters.
-/

/-- Phase of the game, `enum GameState` in game.ts. -/
inductive GameState where
  | Playing
  | Shop
  | RoundOver
  | GameOver
  deriving DecidableEq, Repr

/-- The effect a catalog item applies to a player, one constructor per
`applyEffect` closure shape in items.ts. -/
inductive EffectKind where
  /-- `player.increaseDamage(n)` (sword). -/
  | increaseDamage (amount : ℚ)
  /-- `player.increaseDefense(n)` (shield, and part of titansBelt). -/
  | increaseDefense (amount : ℚ)
  /-- goldMagnet: "No effect - item removed". -/
  | noEffect
  /-- `player.heal(n)` (healthPotion). -/
  | heal (amount : ℚ)
  /-- `player.increaseSpeed(n)` (bootsOfSpeed). -/
  | increaseSpeed (amount : ℚ)
  /-- `player.increaseMaxHealth(n)` (amuletOfVitality). -/
  | increaseMaxHealth (amount : ℚ)
  /-- luckyCharm: `doubleGoldChance = Math.min(1, doubleGoldChance + 0.1)`. -/
  | luckyCharm
  /-- vampiricBlade: `lifestealPercent = Math.min(1, lifestealPercent + 0.1)`. -/
  | vampiricBlade
  /-- titansBelt: lowers maxHealth (floor 1), clamps health, +1 defense,
  `healthRegenPercent = Math.min(1, healthRegenPercent + 0.01)`. -/
  | titansBelt
  /-- fightOrFlight: `player.adjustFightOrFlight(adjustmentValue)` with the
  adjustment defaulting to 1 when omitted. -/
  | fightOrFlightAdjust
  deriving DecidableEq, Repr

/-- An item of the catalog in items.ts (icon and description carry no
behaviour and are omitted). -/
structure Item where
  name : String
  cost : ℤ
  requiresAdjustmentValue : Bool := false
  effect : EffectKind
  deriving DecidableEq, Repr

/-- Mutable state of a player, the fields of `class Player` in player.ts.
Sprite/scene/timing fields (positions, tween state, `lastHitTime`,
`lastRegenTime`, `lastXpGainTime`, `currentVelocity`) are rendering/physics
state and are not part of the model. -/
structure Player where
  id : String
  health : ℚ := 150
  maxHealth : ℚ := 150
  gold : ℤ := 10
  isAlive : Bool := true
  justDied : Bool := false
  isInvulnerable : Bool := false
  inventory : List Item := []
  moveSpeed : ℚ := 50
  attackDamage : ℚ := 15
  defense : ℚ := 0
  /-- Base gold per hit, from the player.ts revision defining it (value 1,
  `PLAYER_CONSTANTS.BASE_GOLD_PER_HIT`); read by `handlePlayerCollision`. -/
  goldPerHit : ℤ := 1
  doubleGoldChance : ℚ := 0
  lifestealPercent : ℚ := 0
  healthRegenPercent : ℚ := 0
  fightOrFlight : ℚ := 0
  level : ℕ := 1
  xp : ℕ := 0
  xpToNextLevel : ℕ := 100
  availableStatPoints : ℕ := 0
  deriving DecidableEq, Repr

/-- A freshly constructed player (the initializers of `class Player`). -/
def Player.make (id : String) : Player := { id := id }

/-- `die()`: sets `isAlive = false` and `justDied = true` (the visual death
effect and body-velocity reset touch only rendering state). -/
def Player.die (p : Player) : Player :=
  { p with isAlive := false, justDied := true }

/-- `takeDamage(amount)`: no-op when dead; otherwise subtracts
`max(0, amount - defense)` from health and, when the result is `≤ 0`, clamps
health to 0 and runs the death transition. -/
def Player.takeDamage (p : Player) (amount : ℚ) : Player :=
  if p.isAlive = false then p
  else
    let actualDamage := max 0 (amount - p.defense)
    let p1 := { p with health := p.health - actualDamage }
    if p1.health ≤ 0 then Player.die { p1 with health := 0 } else p1

/-- `heal(amount)`: `health = Math.min(maxHealth, health + amount)`. -/
def Player.heal (p : Player) (amount : ℚ) : Player :=
  { p with health := min p.maxHealth (p.health + amount) }

/-- `getGold()`. -/
def Player.getGold (p : Player) : ℤ := p.gold

/-- `addGold(amount)`: unclamped addition (negative amounts allowed). -/
def Player.addGold (p : Player) (amount : ℤ) : Player :=
  { p with gold := p.gold + amount }

/-- `stealGold(amount)`: removes `Math.min(amount, gold)` from this player's
gold and returns the stolen amount (player.ts revision with combat gold). -/
def Player.stealGold (p : Player) (amount : ℤ) : ℤ × Player :=
  let stolenAmount := min amount p.gold
  (stolenAmount, { p with gold := p.gold - stolenAmount })

/-- `increaseDamage(amount)`. -/
def Player.increaseDamage (p : Player) (amount : ℚ) : Player :=
  { p with attackDamage := p.attackDamage + amount }

/-- `increaseDefense(amount)`. -/
def Player.increaseDefense (p : Player) (amount : ℚ) : Player :=
  { p with defense := p.defense + amount }

/-- `increaseSpeed(amount)` (the velocity-vector rescale is physics state). -/
def Player.increaseSpeed (p : Player) (amount : ℚ) : Player :=
  { p with moveSpeed := p.moveSpeed + amount }

/-- `increaseMaxHealth(amount)`: raises both `maxHealth` and `health`. -/
def Player.increaseMaxHealth (p : Player) (amount : ℚ) : Player :=
  { p with maxHealth := p.maxHealth + amount, health := p.health + amount }

/-- `adjustFightOrFlight(amount)`:
`fightOrFlight = Math.max(-10, Math.min(10, fightOrFlight + amount))`. -/
def Player.adjustFightOrFlight (p : Player) (amount : ℚ) : Player :=
  { p with fightOrFlight := max (-10) (min 10 (p.fightOrFlight + amount)) }

/-- `setInvulnerable(time)` (the timestamp drives only the expiry, which is
time-based rendering-loop state). -/
def Player.setInvulnerable (p : Player) : Player :=
  { p with isInvulnerable := true }

/-- One pass of `levelUp()`: subtract the threshold from xp, bump the level,
grant 3 stat points, and set the next threshold to
`Math.floor(xpToNextLevel * 1.1)` (exactly `11 * t / 10` in integers). -/
def Player.levelUp (p : Player) : Player :=
  { p with
    xp := p.xp - p.xpToNextLevel
    level := p.level + 1
    availableStatPoints := p.availableStatPoints + 3
    xpToNextLevel := 11 * p.xpToNextLevel / 10 }

/-- The `while (xp >= xpToNextLevel) levelUp()` loop of `addXP`.  The source
loop never terminates when the threshold is 0; every reachable state has
threshold ≥ 100, and the extra `1 ≤ xpToNextLevel` condition in the guard
makes the recursion well-founded without changing any reachable behaviour. -/
def Player.levelLoop (p : Player) : Player :=
  if _h : 1 ≤ p.xpToNextLevel ∧ p.xpToNextLevel ≤ p.xp then
    Player.levelLoop (Player.levelUp p)
  else p
termination_by p.xp
decreasing_by
  simp only [Player.levelUp]
  omega

/-- `addXP(amount)`: no-op when dead, otherwise add to xp and run the
level-up loop. -/
def Player.addXP (p : Player) (amount : ℕ) : Player :=
  if p.isAlive = false then p
  else Player.levelLoop { p with xp := p.xp + amount }

/-- The argument of `allocateStatPoint`. -/
inductive StatChoice where
  | damage
  | speed
  | health
  deriving DecidableEq, Repr

/-- `allocateStatPoint(stat)`: false and no change without available points;
otherwise +5 damage, +5 speed, or +20 max health, and one point is spent. -/
def Player.allocateStatPoint (p : Player) (stat : StatChoice) : Bool × Player :=
  if p.availableStatPoints = 0 then (false, p)
  else
    let p1 :=
      match stat with
      | StatChoice.damage => p.increaseDamage 5
      | StatChoice.speed => p.increaseSpeed 5
      | StatChoice.health => p.increaseMaxHealth 20
    (true, { p1 with availableStatPoints := p1.availableStatPoints - 1 })

/-- `applyEffect(player, adjustmentValue)` of an item, dispatching on the
closure bodies of items.ts. -/
def applyEffect (it : Item) (adjustmentValue : Option ℚ) (p : Player) : Player :=
  match it.effect with
  | EffectKind.increaseDamage n => p.increaseDamage n
  | EffectKind.increaseDefense n => p.increaseDefense n
  | EffectKind.noEffect => p
  | EffectKind.heal n => p.heal n
  | EffectKind.increaseSpeed n => p.increaseSpeed n
  | EffectKind.increaseMaxHealth n => p.increaseMaxHealth n
  | EffectKind.luckyCharm =>
      { p with doubleGoldChance := min 1 (p.doubleGoldChance + 0.1) }
  | EffectKind.vampiricBlade =>
      { p with lifestealPercent := min 1 (p.lifestealPercent + 0.1) }
  | EffectKind.titansBelt =>
      let newMax := max 1 (p.maxHealth - 15)
      { p with
        maxHealth := newMax
        health := min p.health newMax
        defense := p.defense + 1
        healthRegenPercent := min 1 (p.healthRegenPercent + 0.01) }
  | EffectKind.fightOrFlightAdjust =>
      p.adjustFightOrFlight (adjustmentValue.getD 1)

namespace items

/-- items.sword. -/
def sword : Item := { name := "Sword", cost := 5, effect := EffectKind.increaseDamage 5 }

/-- items.shield. -/
def shield : Item := { name := "Shield", cost := 5, effect := EffectKind.increaseDefense 5 }

/-- items.goldMagnet ("Removed - no longer available"). -/
def goldMagnet : Item := { name := "Gold Magnet", cost := 999, effect := EffectKind.noEffect }

/-- items.healthPotion. -/
def healthPotion : Item := { name := "Health Potion", cost := 2, effect := EffectKind.heal 20 }

/-- items.bootsOfSpeed. -/
def bootsOfSpeed : Item := { name := "Boots of Speed", cost := 4, effect := EffectKind.increaseSpeed 10 }

/-- items.amuletOfVitality. -/
def amuletOfVitality : Item := { name := "Amulet of Vitality", cost := 6, effect := EffectKind.increaseMaxHealth 25 }

/-- items.luckyCharm. -/
def luckyCharm : Item := { name := "Lucky Charm", cost := 3, effect := EffectKind.luckyCharm }

/-- items.vampiricBlade. -/
def vampiricBlade : Item := { name := "Vampiric Blade", cost := 7, effect := EffectKind.vampiricBlade }

/-- items.titansBelt. -/
def titansBelt : Item := { name := "Titan's Belt", cost := 6, effect := EffectKind.titansBelt }

/-- items.fightOrFlight: the single free (`cost: 0`) adjustable item. -/
def fightOrFlight : Item :=
  { name := "Fight or Flight", cost := 0, requiresAdjustmentValue := true
    effect := EffectKind.fightOrFlightAdjust }

/-- `items.foeMagnet` as read by shop.ts: the items.ts catalog has no
`foeMagnet` key (the adjustable item is keyed `fightOrFlight`), so this
record lookup yields `undefined`. -/
def foeMagnet : Option Item := none

end items

/-- A stock entry of the shop: an item together with its remaining quantity.
Quantities are only ever set to non-negative integers and decremented when
positive, so they are modelled as `ℕ`. -/
structure ShopEntry where
  item : Item
  quantity : ℕ
  deriving DecidableEq, Repr

/-- Shop state: the `availableItems` array of shop.ts. -/
structure Shop where
  availableItems : List ShopEntry
  deriving DecidableEq, Repr

/-- `initializeShopItems(playerCount)` from shop.ts: pushes one entry per
catalog item whose key exists on the items record, base quantity plus
`bonusQuantity = Math.max(0, playerCount - 1)` (goldMagnet is deliberately
not pushed).  The final push is guarded by `if (items.foeMagnet)`; that key
does not exist in the current items.ts catalog (`items.foeMagnet = none`
above), so the free adjustable item is never stocked. -/
def initializeShopItems (playerCount : ℤ) : List ShopEntry :=
  let bonusQuantity := (max 0 (playerCount - 1)).toNat
  [ { item := items.healthPotion, quantity := bonusQuantity },
    { item := items.sword, quantity := 2 + bonusQuantity },
    { item := items.shield, quantity := 2 + bonusQuantity },
    { item := items.bootsOfSpeed, quantity := 1 + bonusQuantity },
    { item := items.amuletOfVitality, quantity := 1 + bonusQuantity },
    { item := items.luckyCharm, quantity := 2 + bonusQuantity },
    { item := items.vampiricBlade, quantity := 1 + bonusQuantity },
    { item := items.titansBelt, quantity := 1 + bonusQuantity } ]
  ++ match items.foeMagnet with
     | some it => [{ item := it, quantity := playerCount.toNat }]
     | none => []

/-- The `Shop` constructor: throws (`Except.error`) when `playerCount < 1`,
otherwise builds the stocked shop. -/
def Shop.make (playerCount : ℤ) : Except String Shop :=
  if playerCount < 1 then Except.error "Player count must be at least 1"
  else Except.ok { availableItems := initializeShopItems playerCount }

/-- `restock(playerCount)`: clears and reinitializes the stock. -/
def Shop.restock (_s : Shop) (playerCount : ℤ) : Shop :=
  { availableItems := initializeShopItems playerCount }

/-- JavaScript array indexing `this.availableItems[itemArrayIndex]`:
`undefined` for negative or out-of-range indices. -/
def entryAt (l : List ShopEntry) (i : ℤ) : Option ShopEntry :=
  if 0 ≤ i then l[i.toNat]? else none

/-- `buyItem(player, itemArrayIndex, adjustmentValue)` from shop.ts,
returning the success flag together with the updated shop and player.
The source rejects with `quantity <= 0`; quantities are `ℕ` here, so the
test is `quantity = 0`. -/
def Shop.buyItem (s : Shop) (player : Player) (itemArrayIndex : ℤ)
    (adjustmentValue : Option ℚ) : Bool × Shop × Player :=
  match entryAt s.availableItems itemArrayIndex with
  | none => (false, s, player)
  | some shopItem =>
    if shopItem.quantity = 0 then (false, s, player)
    else if player.getGold < shopItem.item.cost then (false, s, player)
    else
      let p1 := player.addGold (-shopItem.item.cost)
      let p2 := applyEffect shopItem.item adjustmentValue p1
      let p3 := { p2 with inventory := p2.inventory ++ [shopItem.item] }
      let newEntry := { shopItem with quantity := shopItem.quantity - 1 }
      (true,
       { s with availableItems := s.availableItems.set itemArrayIndex.toNat newEntry },
       p3)

/-- State of `BattleArenaGame` together with its `GameScene`, restricted to
the round/phase state machine: phase, round counter, round timer (modelled
as a running flag), the scene's `gameEnded` and `roundOverFlag` flags, the
winner reported through `gameEndCallback`, and the player list.  UI
callbacks, the shop instance and scene pause/resume are rendering-side. -/
structure Sim where
  playerCount : ℕ
  phase : GameState
  currentRound : ℕ
  timerRunning : Bool
  gameEnded : Bool
  roundOverFlag : Bool
  winner : Option String
  players : List Player
  deriving DecidableEq, Repr

/-- `setCurrentGameState(newState)` of `BattleArenaGame`: records the phase
and starts the round timer on entering `Playing` from elsewhere, pauses it
on entering `Shop` or any other non-`Playing` state. -/
def setCurrentGameState (g : Sim) (newState : GameState) : Sim :=
  let oldState := g.phase
  let g1 := { g with phase := newState }
  if newState = GameState.Playing ∧ oldState ≠ GameState.Playing then
    { g1 with timerRunning := true }
  else if newState = GameState.Shop then
    { g1 with timerRunning := false }
  else if newState ≠ GameState.Playing then
    { g1 with timerRunning := false }
  else g1

/-- `handleGameUpdate(playersAlive, roundShouldEnd)`: transitions
`Playing → RoundOver` when the scene signals that the round should end;
otherwise only refreshes the UI. -/
def handleGameUpdate (g : Sim) (roundShouldEnd : Bool) : Sim :=
  if roundShouldEnd = true ∧ g.phase = GameState.Playing then
    setCurrentGameState g GameState.RoundOver
  else g

/-- `getAlivePlayers()`. -/
def getAlivePlayers (g : Sim) : List Player :=
  g.players.filter (fun p => p.isAlive)

/-- `getAlivePlayersCount()`. -/
def getAlivePlayersCount (g : Sim) : ℕ :=
  (getAlivePlayers g).length

/-- `GameScene.checkWinCondition()`: when at most one player is alive (and
the game has players and has not already ended) it marks the game ended,
reports the sole survivor's id (or the draw marker) through
`gameEndCallback`, and drives the state machine to `GameOver` (the
`handleGameEnd` and `gameStateChangeCallback` paths both call
`setCurrentGameState(GameOver)`; the second call is idempotent). -/
def checkWinCondition (g : Sim) : Sim :=
  let alivePlayers := getAlivePlayers g
  if alivePlayers.length ≤ 1 ∧ 0 < g.playerCount ∧ g.gameEnded = false then
    let w :=
      match alivePlayers with
      | [p] => p.id
      | _ => "No one (Draw)"
    setCurrentGameState { g with gameEnded := true, winner := some w } GameState.GameOver
  else g

/-- The state-machine part of `GameScene.update(time)` for one tick.  Player
and enemy movement, collisions and UI updates happen earlier in the tick (in
the entity updates and physics callbacks); this function receives the player
list as it stands after them.  It mirrors the body guarded by
`if (!this.gameEnded)`: signal round-end when a death fired this frame or
the timer flag is set, clear the one-shot `justDied` flags, and run the win
check only when neither round-end signal fired. -/
def sceneUpdate (g : Sim) : Sim :=
  if g.gameEnded = true then g
  else
    let playerWasEliminatedThisFrame := g.players.any (fun p => p.justDied)
    let g1 := handleGameUpdate g (g.roundOverFlag || playerWasEliminatedThisFrame)
    let g2 :=
      if playerWasEliminatedThisFrame then
        { g1 with players := g1.players.map (fun p => { p with justDied := false }) }
      else g1
    if g.roundOverFlag = false ∧ playerWasEliminatedThisFrame = false then
      checkWinCondition g2
    else g2

/-- `GameScene.resetRound()`: clears the round-over flag and, for every
player, heals to full (`p.heal(p.maxHealth)`) and revives
(`p.isAlive = true`); repositioning and velocity belong to physics. -/
def resetRound (g : Sim) : Sim :=
  { g with
    roundOverFlag := false
    players := g.players.map (fun p => { p.heal p.maxHealth with isAlive := true }) }

/-- `BattleArenaGame.nextRound()`: only from `Shop` or `RoundOver` does it
increment the round, enter `Playing`, reset the round and (re)start the
round timer; from any other phase the body is skipped entirely. -/
def nextRound (g : Sim) : Sim :=
  if g.phase = GameState.Shop ∨ g.phase = GameState.RoundOver then
    let g1 := { g with currentRound := g.currentRound + 1 }
    let g2 := setCurrentGameState g1 GameState.Playing
    let g3 := resetRound g2
    { g3 with timerRunning := true }
  else g

/-- `GameScene.handlePlayerCollision(player1, player2)` from game.ts.  The
physics layer supplies the two bodies' velocity magnitudes (`speed1`,
`speed2`) and `randomBelowHalf` is the outcome of `Math.random() < 0.5`
used to pick the attacker on a speed tie.  The bounce-apart velocity
assignments at the end of the source act only on physics bodies and run
regardless of the invulnerability gate. -/
def handlePlayerCollision (p1 p2 : Player) (speed1 speed2 : ℚ)
    (randomBelowHalf : Bool) : Player × Player :=
  if p1.isAlive = false ∨ p2.isAlive = false then (p1, p2)
  else if p1.isInvulnerable || p2.isInvulnerable then (p1, p2)
  else
    let playerOneIsAttacker : Bool :=
      if speed2 < speed1 then true
      else if speed1 < speed2 then false
      else randomBelowHalf
    let afterSteal :=
      if playerOneIsAttacker then
        let sg := p2.stealGold p1.goldPerHit
        (p1.addGold sg.1, sg.2)
      else
        let sg := p1.stealGold p2.goldPerHit
        (sg.2, p2.addGold sg.1)
    let p1d := afterSteal.1.takeDamage afterSteal.2.attackDamage
    let p2d :=
      if p1d.isAlive = true then afterSteal.2.takeDamage p1d.attackDamage
      else afterSteal.2
    (p1d.setInvulnerable, p2d.setInvulnerable)

/-- One call of the health-mutation interface of the claim "for all
sequences of takeDamage/heal calls". -/
inductive HealthOp where
  | damage (amount : ℚ)
  | heal (amount : ℚ)
  deriving DecidableEq, Repr

/-- Run one health operation on a player. -/
def applyHealthOp (p : Player) (op : HealthOp) : Player :=
  match op with
  | HealthOp.damage a => p.takeDamage a
  | HealthOp.heal a => p.heal a

/-- Run a sequence of health operations left to right. -/
def applyHealthOps (p : Player) (ops : List HealthOp) : Player :=
  ops.foldl applyHealthOp p

/-- One call of the stat-mutation interface: an item-effect application
(with its optional adjustment value) or a direct `adjustFightOrFlight`. -/
inductive StatOp where
  | applyItem (it : Item) (adjustmentValue : Option ℚ)
  | adjust (amount : ℚ)
  deriving DecidableEq, Repr

/-- Run one stat operation on a player. -/
def applyStatOp (p : Player) (op : StatOp) : Player :=
  match op with
  | StatOp.applyItem it adj => applyEffect it adj p
  | StatOp.adjust a => p.adjustFightOrFlight a

/-- Run a sequence of stat operations left to right. -/
def applyStatOps (p : Player) (ops : List StatOp) : Player :=
  ops.foldl applyStatOp p

/-- The health invariant of the spec: `0 ≤ health ≤ maxHealth`. -/
def healthInBounds (p : Player) : Prop :=
  0 ≤ p.health ∧ p.health ≤ p.maxHealth

/-- The stat-accumulator bounds of the spec: the three percentage stats in
[0,1] and `fightOrFlight` in [-10,10]. -/
def statsInBounds (p : Player) : Prop :=
  0 ≤ p.doubleGoldChance ∧ p.doubleGoldChance ≤ 1 ∧
  0 ≤ p.lifestealPercent ∧ p.lifestealPercent ≤ 1 ∧
  0 ≤ p.healthRegenPercent ∧ p.healthRegenPercent ≤ 1 ∧
  -10 ≤ p.fightOrFlight ∧ p.fightOrFlight ≤ 10

instance (p : Player) : Decidable (healthInBounds p) := by
  unfold healthInBounds; infer_instance

instance (p : Player) : Decidable (statsInBounds p) := by
  unfold statsInBounds; infer_instance

/-- Property of a `HealthOp`: heal operations carry a non-negative amount
(damage amounts are unrestricted). -/
def healNonneg (op : HealthOp) : Prop :=
  match op with
  | HealthOp.heal a => 0 ≤ a
  | HealthOp.damage _ => True

instance (op : HealthOp) : Decidable (healNonneg op) := by
  unfold healNonneg
  cases op <;> infer_instance

/-- A player that has already died this frame (health 0, dead, with the
one-shot `justDied` flag still set). -/
def deadPlayer (id : String) : Player :=
  { Player.make id with isAlive := false, justDied := true, health := 0 }

/-- Scenario D of the spec: a 4-player game in the `Playing` phase in the
tick where three players just died, leaving one survivor. -/
def simD : Sim :=
  { playerCount := 4
    phase := GameState.Playing
    currentRound := 1
    timerRunning := true
    gameEnded := false
    roundOverFlag := false
    winner := none
    players := [Player.make "Player 1", deadPlayer "Player 2",
                deadPlayer "Player 3", deadPlayer "Player 4"] }

/-- A low-health collision participant: one hit of the default 15 attack
damage kills it. -/
def cp1 : Player := { Player.make "p1" with health := 10 }

/-- A default collision participant. -/
def cp2 : Player := Player.make "p2"

/-- A game sitting in the `RoundOver` phase (for exercising `nextRound`). -/
def simRoundOver : Sim :=
  { simD with phase := GameState.RoundOver, players := simD.players }

/-!  Theorems.  Each claim has exactly one main theorem, preceded by helper
lemmas shared across proofs. -/

/-- Every item effect leaves the player's gold untouched (no `applyEffect`
closure in items.ts reads or writes `gold`). -/
theorem applyEffect_gold (it : Item) (adj : Option ℚ) (p : Player) :
    (applyEffect it adj p).gold = p.gold := by
  unfold applyEffect Player.increaseDamage Player.increaseDefense Player.heal
    Player.increaseSpeed Player.increaseMaxHealth Player.adjustFightOrFlight
  cases it.effect <;> rfl

/-- Every item effect leaves the player's inventory untouched (inventory is
appended by `buyItem`, not by the effects). -/
theorem applyEffect_inventory (it : Item) (adj : Option ℚ) (p : Player) :
    (applyEffect it adj p).inventory = p.inventory := by
  unfold applyEffect Player.increaseDamage Player.increaseDefense Player.heal
    Player.increaseSpeed Player.increaseMaxHealth Player.adjustFightOrFlight
  cases it.effect <;> rfl

/-- C5: `takeDamage(amount)` is a no-op on a dead player; on a living player
it subtracts `max(0, amount - defense)` from health, and when the result is
`≤ 0` it clamps health to 0 and runs the death transition (`isAlive` becomes
false and `justDied` becomes true), otherwise the player stays alive with
`justDied` untouched; in particular a fresh player (health 150) with defense
10 taking 30 damage ends at health 130. -/
theorem takeDamage_spec (p : Player) (amount : ℚ) :
    (p.isAlive = false → p.takeDamage amount = p) ∧
    (p.isAlive = true →
      ((p.takeDamage amount).health =
        (if p.health - max 0 (amount - p.defense) ≤ 0 then 0
         else p.health - max 0 (amount - p.defense))) ∧
      (p.health - max 0 (amount - p.defense) ≤ 0 →
        (p.takeDamage amount).isAlive = false ∧
        (p.takeDamage amount).justDied = true) ∧
      (0 < p.health - max 0 (amount - p.defense) →
        (p.takeDamage amount).isAlive = true ∧
        (p.takeDamage amount).justDied = p.justDied)) ∧
    (({ Player.make "scenarioB" with defense := 10 }).takeDamage 30).health = 130 := by
  refine ⟨?_, ?_, by norm_num [Player.make, Player.takeDamage, Player.die]⟩
  · intro h
    unfold Player.takeDamage
    simp [h]
  · intro h
    unfold Player.takeDamage Player.die
    simp only [h, Bool.true_eq_false, if_false]
    refine ⟨?_, ?_, ?_⟩
    · split_ifs <;> rfl
    · intro hd
      rw [if_pos hd]
      exact ⟨rfl, rfl⟩
    · intro hd
      rw [if_neg (not_le.mpr hd)]
      exact ⟨rfl, rfl⟩

/-- Witness for C5 at a concrete input: a fresh living player taking 30
damage with defense 0 drops from 150 to 120 health and stays alive. -/
theorem takeDamage_spec_witness :
    ((Player.make "w5").takeDamage 30).health = 120 ∧
    ((Player.make "w5").takeDamage 30).isAlive = true := by
  have h := (takeDamage_spec (Player.make "w5") 30).2.1 rfl
  refine ⟨?_, (h.2.2 (by norm_num [Player.make])).1⟩
  rw [h.1]
  norm_num [Player.make]

/-- The eight entries pushed by `initializeShopItems` (the `foeMagnet` guard
fails, so no ninth entry is appended), for any player count. -/
theorem initializeShopItems_length (playerCount : ℤ) :
    (initializeShopItems playerCount).length = 8 := rfl

/-- C9: the `Shop` constructor throws the error
"Player count must be at least 1" whenever `playerCount < 1`, and for every
`playerCount ≥ 1` it succeeds with the full 8-entry stocked catalog. -/
theorem shopMake_spec (playerCount : ℤ) :
    (playerCount < 1 →
      Shop.make playerCount = Except.error "Player count must be at least 1") ∧
    (1 ≤ playerCount →
      Shop.make playerCount =
        Except.ok { availableItems := initializeShopItems playerCount } ∧
      (initializeShopItems playerCount).length = 8) := by
  constructor
  · intro h
    unfold Shop.make
    simp [h]
  · intro h
    constructor
    · unfold Shop.make
      simp [not_lt.mpr h]
    · exact initializeShopItems_length playerCount

/-- Witness for C9: construction fails at player count 0 and succeeds at 4. -/
theorem shopMake_spec_witness :
    Shop.make 0 = Except.error "Player count must be at least 1" ∧
    Shop.make 4 = Except.ok { availableItems := initializeShopItems 4 } := by
  exact ⟨(shopMake_spec 0).1 (by norm_num), ((shopMake_spec 4).2 (by norm_num)).1⟩

/-- C2: `buyItem(player, itemArrayIndex, adjustment?)` returns false and
changes neither the player's gold, nor the inventory, nor the shop stock
when the index is invalid, the stock at that index is zero, or the player's
gold is below the item's cost; otherwise it returns true, deducts exactly
the cost from the player's gold, applies the item's effect, appends the item
to the inventory, and decrements that entry's stock by exactly one. -/
theorem buyItem_spec (s : Shop) (player : Player) (i : ℤ) (adj : Option ℚ) :
    (entryAt s.availableItems i = none →
       s.buyItem player i adj = (false, s, player)) ∧
    (∀ e, entryAt s.availableItems i = some e →
      (e.quantity = 0 → s.buyItem player i adj = (false, s, player)) ∧
      (e.quantity ≠ 0 → player.gold < e.item.cost →
         s.buyItem player i adj = (false, s, player)) ∧
      (e.quantity ≠ 0 → e.item.cost ≤ player.gold →
        (s.buyItem player i adj).1 = true ∧
        (s.buyItem player i adj).2.2.gold = player.gold - e.item.cost ∧
        (s.buyItem player i adj).2.2.inventory = player.inventory ++ [e.item] ∧
        (s.buyItem player i adj).2.2 =
          { applyEffect e.item adj (player.addGold (-e.item.cost)) with
            inventory :=
              (applyEffect e.item adj (player.addGold (-e.item.cost))).inventory
                ++ [e.item] } ∧
        (s.buyItem player i adj).2.1.availableItems =
          s.availableItems.set i.toNat { e with quantity := e.quantity - 1 })) := by
  constructor
  · intro h
    unfold Shop.buyItem
    rw [h]
  · intro e he
    refine ⟨?_, ?_, ?_⟩
    · intro hq
      unfold Shop.buyItem
      rw [he]
      simp [hq]
    · intro hq hg
      unfold Shop.buyItem
      rw [he]
      simp [hq, Player.getGold, hg]
    · intro hq hg
      unfold Shop.buyItem
      rw [he]
      dsimp only
      rw [if_neg hq, if_neg (show ¬player.getGold < e.item.cost by
        simpa [Player.getGold] using not_lt.mpr hg)]
      refine ⟨rfl, ?_, ?_, rfl, rfl⟩
      · simp [applyEffect_gold, Player.addGold, sub_eq_add_neg]
      · simp [applyEffect_inventory, Player.addGold]

/-- Witness for C2 at concrete inputs: in the one-player shop, buying the
sword (index 1, cost 5) with the fresh player's 10 gold succeeds, leaves 5
gold, appends the sword, and drops the sword stock from 2 to 1; buying it
with only 2 gold fails and changes nothing. -/
theorem buyItem_spec_witness :
    (Shop.buyItem ⟨initializeShopItems 1⟩ (Player.make "w2") 1 none).1 = true ∧
    (Shop.buyItem ⟨initializeShopItems 1⟩ (Player.make "w2") 1 none).2.2.gold = 5 ∧
    (Shop.buyItem ⟨initializeShopItems 1⟩ (Player.make "w2") 1 none).2.2.inventory
      = [items.sword] ∧
    Shop.buyItem ⟨initializeShopItems 1⟩ { Player.make "w2" with gold := 2 } 1 none
      = (false, ⟨initializeShopItems 1⟩, { Player.make "w2" with gold := 2 }) := by
  have hsome : entryAt (initializeShopItems 1) 1 = some ⟨items.sword, 2⟩ := by
    simp [entryAt, initializeShopItems, items.foeMagnet]
  have h := (buyItem_spec ⟨initializeShopItems 1⟩ (Player.make "w2") 1 none).2
    ⟨items.sword, 2⟩ hsome
  have hok := h.2.2 (by norm_num) (by norm_num [Player.make, items.sword])
  have hfail := ((buyItem_spec ⟨initializeShopItems 1⟩
      { Player.make "w2" with gold := 2 } 1 none).2 ⟨items.sword, 2⟩ hsome).2.1
    (by norm_num) (by norm_num [Player.make, items.sword])
  refine ⟨hok.1, ?_, ?_, hfail⟩
  · rw [hok.2.1]
    norm_num [Player.make, items.sword]
  · rw [hok.2.2.1]
    simp [Player.make]

/-- C8: `nextRound()` acts only from the `Shop` or `RoundOver` phase, where
it increments the round number, enters `Playing`, resets the round (all
players revived and healed to full, round-over flag cleared) and restarts
the round timer; from any other phase it is a no-op leaving the whole game
state unchanged. -/
theorem nextRound_spec (g : Sim) :
    ((g.phase = GameState.Shop ∨ g.phase = GameState.RoundOver) →
      (nextRound g).currentRound = g.currentRound + 1 ∧
      (nextRound g).phase = GameState.Playing ∧
      (nextRound g).timerRunning = true ∧
      (nextRound g).roundOverFlag = false ∧
      (nextRound g).players =
        g.players.map (fun p => { p.heal p.maxHealth with isAlive := true }) ∧
      (nextRound g).gameEnded = g.gameEnded ∧
      (nextRound g).winner = g.winner) ∧
    (g.phase ≠ GameState.Shop → g.phase ≠ GameState.RoundOver →
      nextRound g = g) := by
  constructor
  · intro h
    have hne : g.phase ≠ GameState.Playing := by
      rcases h with h | h <;> simp [h]
    unfold nextRound setCurrentGameState resetRound
    rw [if_pos h]
    dsimp only
    rw [if_pos ⟨rfl, hne⟩]
    exact ⟨rfl, rfl, rfl, rfl, rfl, rfl, rfl⟩
  · intro h1 h2
    unfold nextRound
    rw [if_neg (by rintro (h | h); exacts [h1 h, h2 h])]

/-- Witness for C8: from `RoundOver` the round number goes 1 → 2 and the
phase enters `Playing`; from `Playing` (scenario-D state) the call is the
identity. -/
theorem nextRound_spec_witness :
    (nextRound simRoundOver).phase = GameState.Playing ∧
    (nextRound simRoundOver).currentRound = 2 ∧
    nextRound simD = simD := by
  have h := (nextRound_spec simRoundOver).1 (Or.inr rfl)
  refine ⟨h.2.1, ?_, (nextRound_spec simD).2 (by decide) (by decide)⟩
  rw [h.1]
  rfl

/-- Fuel-indexed induction over `levelLoop`: the level never decreases, each
gained level grants exactly 3 stat points, and (when the threshold is
positive, as in every reachable state) the loop exits with `xp` strictly
below the threshold. -/
theorem levelLoop_points_aux :
    ∀ (n : ℕ) (p : Player), p.xp ≤ n →
      p.level ≤ p.levelLoop.level ∧
      p.levelLoop.availableStatPoints + 3 * p.level
        = p.availableStatPoints + 3 * p.levelLoop.level ∧
      (1 ≤ p.xpToNextLevel → p.levelLoop.xp < p.levelLoop.xpToNextLevel) := by
  intro n
  induction n with
  | zero =>
    intro p hp
    rw [Player.levelLoop, dif_neg (by omega)]
    exact ⟨le_refl _, rfl, fun ht => by omega⟩
  | succ n ih =>
    intro p hp
    by_cases h : 1 ≤ p.xpToNextLevel ∧ p.xpToNextLevel ≤ p.xp
    · rw [Player.levelLoop, dif_pos h]
      have hthr : 1 ≤ (p.levelUp).xpToNextLevel := by
        have h10 : (1 : ℕ) * 10 ≤ 11 * p.xpToNextLevel := by omega
        unfold Player.levelUp
        exact (Nat.le_div_iff_mul_le (by norm_num)).mpr h10
      have hxp : (p.levelUp).xp ≤ n := by
        rw [show (p.levelUp).xp = p.xp - p.xpToNextLevel from rfl]
        omega
      obtain ⟨ih1, ih2, ih3⟩ := ih (p.levelUp) hxp
      refine ⟨?_, ?_, fun _ => ih3 hthr⟩
      · calc p.level ≤ p.level + 1 := by omega
          _ = (p.levelUp).level := rfl
          _ ≤ _ := ih1
      · have e1 : (p.levelUp).level = p.level + 1 := rfl
        have e2 : (p.levelUp).availableStatPoints = p.availableStatPoints + 3 := rfl
        omega
    · rw [Player.levelLoop, dif_neg h]
      exact ⟨le_refl _, rfl, fun ht => by omega⟩

/-- C10: the leveling subsystem.  `addXP` is a no-op on a dead player; on a
living player it adds the amount and resolves level-ups: the level never
decreases, every gained level grants exactly 3 stat points, and the loop
stops only once `xp < xpToNextLevel`; concretely a fresh player (threshold
100) gaining 250 XP ends at level 3 with 40 xp, 6 stat points, and the
threshold sequence 100 → 110 → 121 (floor of 1.1 × previous).
`allocateStatPoint` returns false with no change when no points are
available, and otherwise spends one point for +5 attackDamage, +5 moveSpeed,
or +20 maxHealth with current health also raised by 20. -/
theorem leveling_spec (p : Player) (n : ℕ) (st : StatChoice) :
    (p.isAlive = false → p.addXP n = p) ∧
    (p.isAlive = true →
      p.level ≤ (p.addXP n).level ∧
      (p.addXP n).availableStatPoints + 3 * p.level
        = p.availableStatPoints + 3 * (p.addXP n).level ∧
      (1 ≤ p.xpToNextLevel → (p.addXP n).xp < (p.addXP n).xpToNextLevel)) ∧
    ((Player.make "fresh").addXP 250
      = { Player.make "fresh" with
          level := 3, xp := 40, xpToNextLevel := 121, availableStatPoints := 6 }) ∧
    (p.availableStatPoints = 0 → p.allocateStatPoint st = (false, p)) ∧
    (p.availableStatPoints ≠ 0 →
      (p.allocateStatPoint st).1 = true ∧
      (p.allocateStatPoint st).2.availableStatPoints = p.availableStatPoints - 1 ∧
      (st = StatChoice.damage →
        (p.allocateStatPoint st).2.attackDamage = p.attackDamage + 5) ∧
      (st = StatChoice.speed →
        (p.allocateStatPoint st).2.moveSpeed = p.moveSpeed + 5) ∧
      (st = StatChoice.health →
        (p.allocateStatPoint st).2.maxHealth = p.maxHealth + 20 ∧
        (p.allocateStatPoint st).2.health = p.health + 20)) := by
  refine ⟨?_, ?_, ?_, ?_, ?_⟩
  · intro h
    unfold Player.addXP
    simp [h]
  · intro h
    have he : p.addXP n = Player.levelLoop { p with xp := p.xp + n } := by
      unfold Player.addXP
      simp [h]
    rw [he]
    exact levelLoop_points_aux (p.xp + n) { p with xp := p.xp + n } (le_refl _)
  · unfold Player.addXP
    norm_num [Player.make]
    rw [Player.levelLoop]
    norm_num [Player.levelUp]
    rw [Player.levelLoop]
    norm_num [Player.levelUp]
    rw [Player.levelLoop]
    norm_num [Player.make]
  · intro h
    unfold Player.allocateStatPoint
    rw [if_pos h]
  · intro h
    unfold Player.allocateStatPoint Player.increaseDamage Player.increaseSpeed
      Player.increaseMaxHealth
    rw [if_neg h]
    cases st <;>
      exact ⟨rfl, rfl, by intro hs <;> simp_all, by intro hs <;> simp_all,
        by intro hs <;> simp_all⟩

/-- Witness for C10 at concrete inputs: a dead player gains nothing from 100
XP; a fresh player can spend a granted point on health for +20 max health
and +20 current health. -/
theorem leveling_spec_witness :
    (deadPlayer "wlv").addXP 100 = deadPlayer "wlv" ∧
    (({ Player.make "wlv" with availableStatPoints := 3 }).allocateStatPoint
        StatChoice.health).2.maxHealth = 170 := by
  constructor
  · exact (leveling_spec (deadPlayer "wlv") 100 StatChoice.damage).1 rfl
  · have h := ((leveling_spec { Player.make "wlv" with availableStatPoints := 3 }
      0 StatChoice.health).2.2.2.2 (by norm_num [Player.make])).2.2.2.2 rfl
    rw [h.1]
    norm_num [Player.make]

/-- One stat-mutating operation keeps the stat accumulators inside their
clamp ranges. -/
theorem applyStatOp_bounds (p : Player) (op : StatOp) (h : statsInBounds p) :
    statsInBounds (applyStatOp p op) := by
  obtain ⟨h1, h2, h3, h4, h5, h6, h7, h8⟩ := h
  have hclamp : ∀ x : ℚ, -10 ≤ max (-10) (min 10 x) ∧ max (-10) (min 10 x) ≤ 10 :=
    fun x => ⟨le_max_left _ _, max_le (by norm_num) (min_le_left _ _)⟩
  cases op with
  | adjust a =>
    unfold applyStatOp Player.adjustFightOrFlight statsInBounds
    dsimp only
    exact ⟨h1, h2, h3, h4, h5, h6, (hclamp _).1, (hclamp _).2⟩
  | applyItem it adj =>
    obtain ⟨iname, icost, ireq, ieff⟩ := it
    unfold applyStatOp applyEffect Player.increaseDamage Player.increaseDefense
      Player.heal Player.increaseSpeed Player.increaseMaxHealth
      Player.adjustFightOrFlight statsInBounds
    cases ieff with
    | increaseDamage a => dsimp only; exact ⟨h1, h2, h3, h4, h5, h6, h7, h8⟩
    | increaseDefense a => dsimp only; exact ⟨h1, h2, h3, h4, h5, h6, h7, h8⟩
    | noEffect => dsimp only; exact ⟨h1, h2, h3, h4, h5, h6, h7, h8⟩
    | heal a => dsimp only; exact ⟨h1, h2, h3, h4, h5, h6, h7, h8⟩
    | increaseSpeed a => dsimp only; exact ⟨h1, h2, h3, h4, h5, h6, h7, h8⟩
    | increaseMaxHealth a => dsimp only; exact ⟨h1, h2, h3, h4, h5, h6, h7, h8⟩
    | luckyCharm =>
      dsimp only
      exact ⟨le_min (by norm_num) (by linarith), min_le_left _ _,
        h3, h4, h5, h6, h7, h8⟩
    | vampiricBlade =>
      dsimp only
      exact ⟨h1, h2, le_min (by norm_num) (by linarith), min_le_left _ _,
        h5, h6, h7, h8⟩
    | titansBelt =>
      dsimp only
      exact ⟨h1, h2, h3, h4, le_min (by norm_num) (by linarith), min_le_left _ _,
        h7, h8⟩
    | fightOrFlightAdjust =>
      dsimp only
      exact ⟨h1, h2, h3, h4, h5, h6, (hclamp _).1, (hclamp _).2⟩

/-- C6: under every sequence of item-effect applications and
`adjustFightOrFlight` calls, `doubleGoldChance`, `lifestealPercent` and
`healthRegenPercent` stay within [0,1] and `fightOrFlight` within [-10,10]
after every call (each operation clamps its result inline). -/
theorem statClamp_spec (ops : List StatOp) (p : Player) (h : statsInBounds p) :
    ∀ k, statsInBounds (applyStatOps p (ops.take k)) := by
  have main : ∀ (l : List StatOp) (q : Player),
      statsInBounds q → statsInBounds (applyStatOps q l) := by
    intro l
    induction l with
    | nil => intro q hq; exact hq
    | cons op t iht =>
      intro q hq
      exact iht _ (applyStatOp_bounds q op hq)
  intro k
  exact main _ p h

/-- Witness for C6: a fresh player buying a lucky charm, slamming
fight-or-flight far past the floor, taking a titan's belt and then pushing
fight-or-flight far past the ceiling stays inside all stat bounds. -/
theorem statClamp_spec_witness :
    statsInBounds (applyStatOps (Player.make "w6")
      [StatOp.applyItem items.luckyCharm none, StatOp.adjust (-25),
       StatOp.applyItem items.titansBelt none,
       StatOp.applyItem items.fightOrFlight (some 99)]) := by
  have h := statClamp_spec
    [StatOp.applyItem items.luckyCharm none, StatOp.adjust (-25),
     StatOp.applyItem items.titansBelt none,
     StatOp.applyItem items.fightOrFlight (some 99)]
    (Player.make "w6") (by norm_num [statsInBounds, Player.make]) 4
  exact h

/-- `takeDamage` keeps health within `[0, maxHealth]` for every damage
amount (the subtracted quantity is non-negative and the result is clamped
at 0). -/
theorem takeDamage_healthInBounds (p : Player) (a : ℚ) (h : healthInBounds p) :
    healthInBounds (p.takeDamage a) := by
  obtain ⟨h1, h2⟩ := h
  unfold Player.takeDamage Player.die healthInBounds
  by_cases hAlive : p.isAlive = false
  · rw [if_pos hAlive]
    exact ⟨h1, h2⟩
  · rw [if_neg hAlive]
    dsimp only
    split_ifs with hZero
    all_goals dsimp only
    · exact ⟨le_refl 0, h1.trans h2⟩
    · constructor
      · linarith [not_le.mp hZero]
      · have : 0 ≤ max 0 (a - p.defense) := le_max_left 0 _
        linarith

/-- `heal` with a non-negative amount keeps health within
`[0, maxHealth]`. -/
theorem heal_healthInBounds (p : Player) (a : ℚ) (ha : 0 ≤ a)
    (h : healthInBounds p) : healthInBounds (p.heal a) := by
  obtain ⟨h1, h2⟩ := h
  unfold Player.heal healthInBounds
  exact ⟨le_min (h1.trans h2) (by linarith), min_le_left _ _⟩

/-- Counterexample to C4 as stated: with fully arbitrary amounts the health
clamp fails — a single `heal(-151)` call on a fresh player (health 150)
drives health to -1, below the claimed lower bound of 0. -/
theorem healthClamp_counterexample :
    ¬ healthInBounds (applyHealthOps (Player.make "c4") [HealthOp.heal (-151)]) := by
  norm_num [healthInBounds, applyHealthOps, applyHealthOp, Player.heal, Player.make]

/-- C4 (amended): for every starting state satisfying
`0 ≤ health ≤ maxHealth` and every finite sequence of `takeDamage` calls
(arbitrary amounts) and `heal` calls with non-negative amounts,
`0 ≤ health ≤ maxHealth` holds after every call of the sequence. -/
theorem healthClamp_amended (ops : List HealthOp) (p : Player)
    (hp : healthInBounds p) (hops : ∀ op ∈ ops, healNonneg op) :
    ∀ k, healthInBounds (applyHealthOps p (ops.take k)) := by
  have main : ∀ (l : List HealthOp) (q : Player),
      (∀ op ∈ l, healNonneg op) → healthInBounds q →
        healthInBounds (applyHealthOps q l) := by
    intro l
    induction l with
    | nil => intro q _ hq; exact hq
    | cons op t iht =>
      intro q hl hq
      refine iht _ (fun o ho => hl o (List.mem_cons_of_mem _ ho)) ?_
      cases op with
      | damage a => exact takeDamage_healthInBounds q a hq
      | heal a =>
        exact heal_healthInBounds q a (hl (HealthOp.heal a) (List.mem_cons_self _ _)) hq
  intro k
  exact main _ p (fun o ho => hops o (List.take_subset _ _ ho)) hp

/-- Witness for C4 (amended): a fresh player surviving heavy damage, a large
heal, an overkill hit and a small heal stays inside the health bounds after
the third call. -/
theorem healthClamp_amended_witness :
    healthInBounds (applyHealthOps (Player.make "w4")
      ([HealthOp.damage 30, HealthOp.heal 200, HealthOp.damage 1000,
        HealthOp.heal 5].take 3)) := by
  refine healthClamp_amended _ (Player.make "w4")
    (by norm_num [healthInBounds, Player.make]) ?_ 3
  intro op hop
  fin_cases hop <;> norm_num [healNonneg]

/-- C7 at the failing input: with `playerCount = 4` the stocked entries do
follow base + max(0, 4-1) (the sword, base 2, shows stock 5), but no entry
of the initialized shop is the free adjustable item — nothing with cost 0
and nothing named "Fight or Flight" is stocked, because
`initializeShopItems` guards the push with the removed `items.foeMagnet`
key. -/
theorem shopStock_freeItem_missing :
    ((initializeShopItems 4).filter (fun e => e.item.name = "Sword")).map
        (fun e => e.quantity) = [5] ∧
    ∀ e ∈ initializeShopItems 4,
      e.item.cost ≠ 0 ∧ e.item.name ≠ "Fight or Flight" := by
  constructor
  · rfl
  · decide

/-- `takeDamage` written as a single conditional, used to rewrite without
the intermediate let bindings. -/
theorem takeDamage_def (p : Player) (a : ℚ) :
    p.takeDamage a =
      if p.isAlive = false then p
      else if p.health - max 0 (a - p.defense) ≤ 0 then
        { p with health := 0, isAlive := false, justDied := true }
      else { p with health := p.health - max 0 (a - p.defense) } := rfl

/-- `takeDamage` leaves gold untouched. -/
theorem takeDamage_gold (p : Player) (a : ℚ) : (p.takeDamage a).gold = p.gold := by
  rw [takeDamage_def]
  split_ifs <;> rfl

/-- `takeDamage` leaves attack damage untouched. -/
theorem takeDamage_attackDamage (p : Player) (a : ℚ) :
    (p.takeDamage a).attackDamage = p.attackDamage := by
  rw [takeDamage_def]
  split_ifs <;> rfl

/-- `takeDamage` commutes with overwriting the gold field (damage reads and
writes only health/alive state). -/
theorem takeDamage_setGold (p : Player) (g : ℤ) (a : ℚ) :
    ({ p with gold := g }).takeDamage a = { p.takeDamage a with gold := g } := by
  rw [takeDamage_def, takeDamage_def]
  dsimp only
  split_ifs <;> rfl

/-- Counterexample to C1 as stated: when player1 dies from player2's attack
damage, player2 takes no damage at all — the mutual-damage step is guarded
by `if (player1.isAlive)`.  With `cp1` at 10 health hit by the default 15
attack damage, `cp2` keeps its full 150 health instead of losing
`max(0, 15 - 0) = 15`. -/
theorem handlePlayerCollision_counterexample :
    (handlePlayerCollision cp1 cp2 40 80 true).2.health = cp2.health ∧
    (handlePlayerCollision cp1 cp2 40 80 true).2.health ≠
      cp2.health - max 0 (cp1.attackDamage - cp2.defense) := by
  norm_num [handlePlayerCollision, cp1, cp2, Player.make, Player.stealGold,
    Player.addGold, Player.setInvulnerable, Player.takeDamage, Player.die]

/-- C1 (amended): in a player-vs-player collision with both players alive
and neither invulnerable, the attacker is the strictly faster player (on a
speed tie the `Math.random() < 0.5` draw decides); the attacker steals
`min(goldPerHit, victim.gold)` gold, which the victim loses and the attacker
gains exactly; player1 always takes player2's attackDamage, but player2
takes player1's attackDamage only if player1 is still alive after that
damage (if player1 died, player2 takes none); both players then become
invulnerable. -/
theorem handlePlayerCollision_spec (p1 p2 : Player) (speed1 speed2 : ℚ) (tie : Bool)
    (h1 : p1.isAlive = true) (h2 : p2.isAlive = true)
    (h3 : p1.isInvulnerable = false) (h4 : p2.isInvulnerable = false) :
    (speed2 < speed1 →
       (handlePlayerCollision p1 p2 speed1 speed2 tie).1.gold
         = p1.gold + min p1.goldPerHit p2.gold ∧
       (handlePlayerCollision p1 p2 speed1 speed2 tie).2.gold
         = p2.gold - min p1.goldPerHit p2.gold) ∧
    (speed1 < speed2 →
       (handlePlayerCollision p1 p2 speed1 speed2 tie).2.gold
         = p2.gold + min p2.goldPerHit p1.gold ∧
       (handlePlayerCollision p1 p2 speed1 speed2 tie).1.gold
         = p1.gold - min p2.goldPerHit p1.gold) ∧
    (speed1 = speed2 → tie = true →
       (handlePlayerCollision p1 p2 speed1 speed2 tie).1.gold
         = p1.gold + min p1.goldPerHit p2.gold ∧
       (handlePlayerCollision p1 p2 speed1 speed2 tie).2.gold
         = p2.gold - min p1.goldPerHit p2.gold) ∧
    (speed1 = speed2 → tie = false →
       (handlePlayerCollision p1 p2 speed1 speed2 tie).2.gold
         = p2.gold + min p2.goldPerHit p1.gold ∧
       (handlePlayerCollision p1 p2 speed1 speed2 tie).1.gold
         = p1.gold - min p2.goldPerHit p1.gold) ∧
    (handlePlayerCollision p1 p2 speed1 speed2 tie).1.health
       = (p1.takeDamage p2.attackDamage).health ∧
    (handlePlayerCollision p1 p2 speed1 speed2 tie).1.isAlive
       = (p1.takeDamage p2.attackDamage).isAlive ∧
    ((p1.takeDamage p2.attackDamage).isAlive = true →
       (handlePlayerCollision p1 p2 speed1 speed2 tie).2.health
         = (p2.takeDamage p1.attackDamage).health) ∧
    ((p1.takeDamage p2.attackDamage).isAlive = false →
       (handlePlayerCollision p1 p2 speed1 speed2 tie).2.health = p2.health) ∧
    (handlePlayerCollision p1 p2 speed1 speed2 tie).1.isInvulnerable = true ∧
    (handlePlayerCollision p1 p2 speed1 speed2 tie).2.isInvulnerable = true := by
  unfold handlePlayerCollision
  rw [if_neg (by simp [h1, h2]), if_neg (by simp [h3, h4])]
  unfold Player.stealGold Player.addGold Player.setInvulnerable
  clear h1 h2 h3 h4
  refine ⟨?_, ?_, ?_, ?_, ?_, ?_, ?_, ?_, ?_, ?_⟩
  · intro hlt
    simp only [if_pos hlt]
    constructor <;> split_ifs <;>
      simp_all [takeDamage_setGold, takeDamage_gold]
  · intro hlt
    have hn : ¬ speed2 < speed1 := lt_asymm hlt
    simp only [if_neg hn, if_pos hlt]
    constructor <;> split_ifs <;>
      simp_all [takeDamage_setGold, takeDamage_gold]
  · intro heq htie
    have hn : ¬ speed2 < speed1 := by rw [heq]; exact lt_irrefl _
    have hn2 : ¬ speed1 < speed2 := by rw [heq]; exact lt_irrefl _
    simp only [if_neg hn, if_neg hn2, htie]
    constructor <;> split_ifs <;>
      simp_all [takeDamage_setGold, takeDamage_gold]
  · intro heq htie
    have hn : ¬ speed2 < speed1 := by rw [heq]; exact lt_irrefl _
    have hn2 : ¬ speed1 < speed2 := by rw [heq]; exact lt_irrefl _
    simp only [if_neg hn, if_neg hn2, htie]
    constructor <;> split_ifs <;>
      simp_all [takeDamage_setGold, takeDamage_gold]
  · cases tie <;> split_ifs <;>
      simp_all [takeDamage_setGold, takeDamage_gold, takeDamage_attackDamage]
  · cases tie <;> split_ifs <;>
      simp_all [takeDamage_setGold, takeDamage_gold, takeDamage_attackDamage]
  · intro hAlive
    cases tie <;> split_ifs <;>
      simp_all [takeDamage_setGold, takeDamage_gold, takeDamage_attackDamage]
  · intro hDead
    cases tie <;> split_ifs <;>
      simp_all [takeDamage_setGold, takeDamage_gold, takeDamage_attackDamage]
  · cases tie <;> split_ifs <;>
      simp_all [takeDamage_setGold]
  · cases tie <;> split_ifs <;>
      simp_all [takeDamage_setGold]

/-- Witness for C1 (amended), Scenario C: two fresh players (10 gold each,
15 attack damage) collide at speeds 80 vs 40 — player1 is the attacker and
ends with 11 gold, the victim with 9, and the surviving victim's health
drops to 135. -/
theorem handlePlayerCollision_spec_witness :
    (handlePlayerCollision (Player.make "wa") (Player.make "wb") 80 40 true).1.gold = 11 ∧
    (handlePlayerCollision (Player.make "wa") (Player.make "wb") 80 40 true).2.gold = 9 ∧
    (handlePlayerCollision (Player.make "wa") (Player.make "wb") 80 40 true).2.health
      = 135 := by
  have h := handlePlayerCollision_spec (Player.make "wa") (Player.make "wb")
    80 40 true rfl rfl rfl rfl
  obtain ⟨hfast, _, _, _, _, _, hsurv, _, _, _⟩ := h
  have hg := hfast (by norm_num)
  refine ⟨?_, ?_, ?_⟩
  · rw [hg.1]
    norm_num [Player.make]
  · rw [hg.2]
    norm_num [Player.make]
  · rw [hsurv (by norm_num [Player.make, Player.takeDamage, Player.die])]
    norm_num [Player.make, Player.takeDamage, Player.die]

/-- Clearing the one-shot `justDied` flags leaves no player with the flag
set. -/
theorem any_justDied_clear (l : List Player) :
    (l.map (fun p => { p with justDied := false })).any (fun p => p.justDied) = false := by
  induction l with
  | nil => rfl
  | cons a t ih => simp [ih]

/-- Clearing the `justDied` flags commutes with filtering the living
players. -/
theorem filter_alive_clear (l : List Player) :
    (l.map (fun p => { p with justDied := false })).filter (fun p => p.isAlive)
      = (l.filter (fun p => p.isAlive)).map (fun p => { p with justDied := false }) := by
  induction l with
  | nil => rfl
  | cons a t ih =>
    by_cases ha : a.isAlive = true
    · simp [List.filter_cons, ha, ih]
    · simp [List.filter_cons, ha, ih]

/-- In a `Playing` tick where a death event fired, the scene signals
round-end: the state machine moves to `RoundOver` (timer paused), the
`justDied` flags are cleared, and the win check is skipped. -/
theorem sceneUpdate_deathTick (g : Sim)
    (hphase : g.phase = GameState.Playing)
    (hended : g.gameEnded = false)
    (hflag : g.roundOverFlag = false)
    (helim : g.players.any (fun p => p.justDied) = true) :
    sceneUpdate g = { g with
      phase := GameState.RoundOver
      timerRunning := false
      players := g.players.map (fun p => { p with justDied := false }) } := by
  simp [sceneUpdate, handleGameUpdate, setCurrentGameState, hended, hflag, hphase, helim]

/-- In a tick with no fresh deaths and no round-over flag, when at most one
player is left the win check fires: the game ends, the winner (or draw
marker) is reported, and the phase becomes `GameOver`. -/
theorem sceneUpdate_winTick (g : Sim)
    (hended : g.gameEnded = false)
    (hflag : g.roundOverFlag = false)
    (helim : g.players.any (fun p => p.justDied) = false)
    (halive : (g.players.filter (fun p => p.isAlive)).length ≤ 1)
    (hcount : 0 < g.playerCount) :
    (sceneUpdate g).phase = GameState.GameOver ∧
    (sceneUpdate g).gameEnded = true ∧
    (sceneUpdate g).winner = some (match g.players.filter (fun p => p.isAlive) with
      | [p] => p.id
      | _ => "No one (Draw)") := by
  simp [sceneUpdate, handleGameUpdate, checkWinCondition, getAlivePlayers,
    setCurrentGameState, hended, hflag, helim, halive, hcount]

/-- Counterexample to C3 as stated: in the scenario-D state (4 players, 3
just died, 1 survivor) the tick moves the machine to `RoundOver`, not to
`GameOver`. -/
theorem winPriority_counterexample :
    (sceneUpdate simD).phase = GameState.RoundOver ∧
    ¬ (sceneUpdate simD).phase = GameState.GameOver := by decide

/-- C3 (amended): when, during the `Playing` phase, deaths in a tick leave
at most one living player, that tick transitions to `RoundOver` (the win
check is skipped in any tick in which a death event fired), and the
following tick performs the win check and transitions to `GameOver`,
reporting the sole survivor's id (or the draw marker when none are left). -/
theorem winPriority_amended (g : Sim)
    (hphase : g.phase = GameState.Playing)
    (hended : g.gameEnded = false)
    (hflag : g.roundOverFlag = false)
    (helim : g.players.any (fun p => p.justDied) = true)
    (halive : (g.players.filter (fun p => p.isAlive)).length ≤ 1)
    (hcount : 0 < g.playerCount) :
    (sceneUpdate g).phase = GameState.RoundOver ∧
    (sceneUpdate (sceneUpdate g)).phase = GameState.GameOver ∧
    (sceneUpdate (sceneUpdate g)).gameEnded = true ∧
    (sceneUpdate (sceneUpdate g)).winner
      = some (match g.players.filter (fun p => p.isAlive) with
              | [p] => p.id
              | _ => "No one (Draw)") := by
  have h1 := sceneUpdate_deathTick g hphase hended hflag helim
  have h2 := sceneUpdate_winTick
    (Sim.mk g.playerCount GameState.RoundOver g.currentRound false g.gameEnded
      g.roundOverFlag g.winner
      (g.players.map (fun p => { p with justDied := false })))
    hended hflag (any_justDied_clear g.players)
    (by dsimp only; rw [filter_alive_clear, List.length_map]; exact halive)
    hcount
  have hmatch :
      (match (g.players.map (fun p => { p with justDied := false })).filter
          (fun p => p.isAlive) with
        | [p] => p.id
        | _ => "No one (Draw)") =
      (match g.players.filter (fun p => p.isAlive) with
        | [p] => p.id
        | _ => "No one (Draw)") := by
    rw [filter_alive_clear]
    generalize g.players.filter (fun p => p.isAlive) = l
    rcases l with _ | ⟨p, _ | ⟨q, t⟩⟩ <;> rfl
  rw [h1]
  exact ⟨rfl, h2.1, h2.2.1, by rw [h2.2.2]; exact congrArg some hmatch⟩

/-- Witness for C3 (amended) at the scenario-D state: the death tick lands
in `RoundOver` and the next tick ends the game with "Player 1" as winner. -/
theorem winPriority_amended_witness :
    (sceneUpdate simD).phase = GameState.RoundOver ∧
    (sceneUpdate (sceneUpdate simD)).phase = GameState.GameOver ∧
    (sceneUpdate (sceneUpdate simD)).winner = some "Player 1" := by
  have h := winPriority_amended simD rfl rfl rfl (by decide) (by decide) (by decide)
  refine ⟨h.1, h.2.1, ?_⟩
  rw [h.2.2.2]
  rfl
